import Mathlib

/-!
Verification of the rag-shared repository (structured logging, request-scoped
context, timed-operation helper, cache client) against its specification.

The Python modules `rag_shared/logging.py`, `rag_shared/dragonfly.py`,
`rag_shared/__init__.py` and `rag_shared/observability.py` are shallowly
embedded below.  Python dicts are modelled as insertion-ordered association
lists (`PyDict`), Python values as `PyVal`, exceptions as explicit
`Except`/`Option` results, and the async-safe `ContextVar` state as explicit
state passing.  Machine floats (`time.perf_counter` readings, `round(x, 2)`)
are modelled as rationals.
-/

namespace RagShared

mutual

/-- Python values as they occur in log records and cache payloads:
`None`, booleans, ints, floats (modelled as rationals), strings, lists and
dicts.  Dicts are insertion-ordered association lists, mirroring CPython
dict semantics. -/
inductive PyVal where
  | none
  | bool (b : Bool)
  | int (n : Int)
  | num (q : ℚ)
  | str (s : String)
  | list (l : PyList)
  | dict (d : PyDict)

inductive PyList where
  | nil
  | cons (v : PyVal) (rest : PyList)

inductive PyDict where
  | nil
  | cons (k : String) (v : PyVal) (rest : PyDict)

end

/-- Assignment `d[k] = v` on a CPython dict: if the key is present its value
is replaced in place (insertion position kept), otherwise the pair is
appended at the end. -/
def PyDict.set (d : PyDict) (k : String) (v : PyVal) : PyDict :=
  match d with
  | .nil => .cons k v .nil
  | .cons k1 v1 rest => if k1 = k then .cons k v rest else .cons k1 v1 (rest.set k v)

/-- Lookup `d[k]`, returning the first (unique) binding of `k`. -/
def PyDict.lookup (d : PyDict) (k : String) : Option PyVal :=
  match d with
  | .nil => Option.none
  | .cons k1 v1 rest => if k1 = k then some v1 else rest.lookup k

/-- Merge as in the Python dict literal `\x7b**a, **b\x7d`: the entries of `b`
are assigned into `a` left to right, overriding same-named keys and appending
new ones. -/
def PyDict.merge (a : PyDict) : PyDict → PyDict
  | .nil => a
  | .cons k v rest => (a.set k v).merge rest

/-- Keys of a dict in insertion order. -/
def PyDict.keysOf (d : PyDict) : List String :=
  match d with
  | .nil => []
  | .cons k _ rest => k :: rest.keysOf

/-- Truthiness test `if context:` on a dict. -/
def PyDict.isEmpty (d : PyDict) : Bool :=
  match d with
  | .nil => true
  | .cons _ _ _ => false

/-- Keep only the entries whose key satisfies `p` (order preserved). -/
def PyDict.filterKeys (p : String → Bool) : PyDict → PyDict
  | .nil => .nil
  | .cons k v rest => if p k then .cons k v (filterKeys p rest) else filterKeys p rest

/-- Build a dict from a list of key/value pairs (assumed distinct keys,
as in a Python dict literal). -/
def PyDict.ofList : List (String × PyVal) → PyDict
  | [] => .nil
  | (k, v) :: rest => .cons k v (PyDict.ofList rest)

/-- Captured Python exception: its type name and its message (`str(e)`). -/
structure PyExc where
  typeName : String
  message : String
deriving DecidableEq

/-! ### Request-scoped context (`rag_shared/logging.py`)

`request_context` is a `ContextVar` holding a dict.  `RequestContext.__enter__`
reads the current dict, merges the scope fields over it with
`\x7b**existing, **self.context\x7d`, stores the merged dict and keeps the
token returned by `ContextVar.set`; `__exit__` calls
`request_context.reset(token)`, which restores the value the variable had
just before that `set`, regardless of any intermediate `set` calls. -/

/-- Effect of `RequestContext.__enter__` on the current context dict: returns
the new current dict together with the reset token (the dict that was current
just before the `set`). -/
def RequestContext.enter (cur fields : PyDict) : PyDict × PyDict :=
  (cur.merge fields, cur)

/-- Effect of `ContextVar.reset(token)`: the variable becomes the value saved
in the token. -/
def contextVarReset (token : PyDict) : PyDict :=
  token

/-- Effect of `add_context(**context)`: merge the new fields over the current
dict and store the result. -/
def add_context (cur fields : PyDict) : PyDict :=
  cur.merge fields

/-- Effect of `clear_context()`: the current dict becomes empty. -/
def clear_context (_cur : PyDict) : PyDict :=
  PyDict.nil

/-- Programs over the request context, covering everything the body of a
`with RequestContext(...)` block can do to the context variable:
`add_context`, `clear_context`, raising an exception (which aborts the rest
of the block), and nested `with RequestContext(...)` scopes. -/
inductive CtxProg where
  | done
  | add (fields : PyDict) (rest : CtxProg)
  | clear (rest : CtxProg)
  | raiseExc (e : PyExc)
  | scope (fields : PyDict) (inner : CtxProg) (rest : CtxProg)

/-- Run a context program from a current context dict.  Returns the final
context dict together with the exception escaping the program, if any.
A `scope` enters via `RequestContext.enter`, runs its body, and on both the
normal and the exceptional path runs `__exit__`, i.e. resets the context
variable to the token captured at entry. -/
def runCtx : PyDict → CtxProg → PyDict × Option PyExc
  | cur, .done => (cur, Option.none)
  | cur, .add f rest => runCtx (add_context cur f) rest
  | cur, .clear rest => runCtx (clear_context cur) rest
  | cur, .raiseExc e => (cur, some e)
  | cur, .scope f inner rest =>
      let entered := RequestContext.enter cur f
      let res := runCtx entered.1 inner
      match res.2 with
      | Option.none => runCtx (contextVarReset entered.2) rest
      | some e => (contextVarReset entered.2, some e)

/-- Claim C3: nested context scopes merge on enter and restore on exit.
From the empty context, entering `\x7ba: 1\x7d` makes the snapshot
`\x7ba: 1\x7d`; entering `\x7bb: 2\x7d` inside it makes the snapshot
`\x7ba: 1, b: 2\x7d`; exiting the inner scope (resetting with its token)
restores `\x7ba: 1\x7d`; exiting the outer scope restores the empty dict.
Moreover an inner scope binding `a` over an outer scope binding `a`
overrides it while the inner scope is active. -/
theorem requestContext_nesting_merge_restore :
    (RequestContext.enter PyDict.nil (.cons "a" (.int 1) .nil)).1
      = PyDict.cons "a" (.int 1) .nil ∧
    (RequestContext.enter
        (RequestContext.enter PyDict.nil (.cons "a" (.int 1) .nil)).1
        (.cons "b" (.int 2) .nil)).1
      = PyDict.cons "a" (.int 1) (.cons "b" (.int 2) .nil) ∧
    contextVarReset
        (RequestContext.enter
          (RequestContext.enter PyDict.nil (.cons "a" (.int 1) .nil)).1
          (.cons "b" (.int 2) .nil)).2
      = PyDict.cons "a" (.int 1) .nil ∧
    contextVarReset (RequestContext.enter PyDict.nil (.cons "a" (.int 1) .nil)).2
      = PyDict.nil ∧
    (RequestContext.enter (PyDict.cons "a" (.int 1) .nil)
        (.cons "a" (.int 2) .nil)).1
      = PyDict.cons "a" (.int 2) .nil ∧
    ((RequestContext.enter (PyDict.cons "a" (.int 1) .nil)
        (.cons "a" (.int 2) .nil)).1).lookup "a"
      = some (.int 2) :=
  ⟨rfl, rfl, rfl, rfl, rfl, rfl⟩

/-- Claim C4: for every scope, after the scope exits — whether its body
completes normally or raises, and whatever `add_context`, `clear_context`,
raises or nested scopes the body performed — the current context equals
exactly the snapshot that was current immediately before the scope was
entered, and any exception of the body is propagated. -/
theorem requestContext_restores_on_exit (cur fields : PyDict) (inner : CtxProg) :
    runCtx cur (.scope fields inner .done)
      = (cur, (runCtx (cur.merge fields) inner).2) := by
  show (match (runCtx (cur.merge fields) inner).2 with
      | Option.none => (cur, (Option.none : Option PyExc))
      | some e => (cur, some e))
    = (cur, (runCtx (cur.merge fields) inner).2)
  cases (runCtx (cur.merge fields) inner).2 <;> rfl

/-! ### Package imports (`rag_shared/__init__.py`, `rag_shared/observability.py`)

`from .logging import a, b, ...` binds the requested names left to right and
raises `ImportError` at the first name the module does not define. -/

/-- Names bound at the top level of `rag_shared/logging.py` (imports,
the context variable, the formatter class, and the functions it defines). -/
def loggingTopLevelNames : List String :=
  ["json", "logging", "os", "sys", "time", "traceback", "contextmanager",
   "ContextVar", "datetime", "timezone", "Any", "Dict", "Generator",
   "Optional", "request_context", "StructuredJSONFormatter",
   "configure_logging", "get_logger", "RequestContext", "stage",
   "add_context", "clear_context", "__all__"]

/-- Names `rag_shared/__init__.py` requests from `.logging`, in source
order. -/
def initFromLoggingImports : List String :=
  ["setup_logging", "get_logger", "timed", "log_context",
   "clear_log_context", "MilvusFormatter", "configure_logging", "stage",
   "RequestContext", "add_context", "clear_context", "request_context",
   "StructuredJSONFormatter"]

/-- Names `rag_shared/observability.py` requests from `.logging`. -/
def observabilityFromLoggingImports : List String :=
  ["setup_logging", "get_logger"]

/-- First requested name the exporting module does not define; `from ... import`
raises `ImportError` exactly when this is `some`. -/
def firstMissingImport (requested defined : List String) : Option String :=
  requested.find? (fun n => !(defined.contains n))

/-- Outcome of `import rag_shared`: executing `__init__.py` runs its
`from .logging import ...` statement first; an `ImportError` there aborts
the package import, so nothing the package exports becomes reachable. -/
def ragSharedImportResult : Except String Unit :=
  match firstMissingImport initFromLoggingImports loggingTopLevelNames with
  | some n => .error ("cannot import name " ++ n ++ " from rag_shared.logging")
  | Option.none => .ok ()

/-- Outcome of `import rag_shared.observability` with respect to its
`from .logging import setup_logging, get_logger` statement. -/
def observabilityImportResult : Except String Unit :=
  match firstMissingImport observabilityFromLoggingImports loggingTopLevelNames with
  | some n => .error ("cannot import name " ++ n ++ " from rag_shared.logging")
  | Option.none => .ok ()

/-- Claim C2: importing the package root `rag_shared` (and likewise
`rag_shared.observability`) raises `ImportError`, because `__init__.py`
requests `setup_logging`, `timed`, `log_context`, `clear_log_context` and
`MilvusFormatter` from `rag_shared.logging` and `observability.py` imports
`setup_logging` from it, yet `logging.py` defines none of these names; hence
none of the package interface is reachable through the package root. -/
theorem import_rag_shared_raises :
    ragSharedImportResult = .error "cannot import name setup_logging from rag_shared.logging" ∧
    observabilityImportResult = .error "cannot import name setup_logging from rag_shared.logging" ∧
    (["setup_logging", "timed", "log_context", "clear_log_context",
      "MilvusFormatter"].all
        (fun n => !(loggingTopLevelNames.contains n))) = true :=
  ⟨rfl, rfl, by decide⟩

/-! ### Cache client (`rag_shared/dragonfly.py`)

Every public operation of `DragonflyClient` wraps its body in
`try ... except Exception`, returning a failure value and logging the error
instead of raising.  The underlying Redis client calls and the
pickle (de)serialization are effectful collaborators; each operation below
takes their outcomes as explicit `Except` parameters. -/

/-- Severity of an emitted log record. -/
inductive LogLevel where
  | debug
  | info
  | warning
  | error
deriving DecidableEq

/-- One record emitted through a logger: severity, message, and the extra
fields attached at the call site. -/
structure EmittedLog where
  level : LogLevel
  message : String
  extra : PyDict

/-- Python `bool` rendered inside an f-string. -/
def pyBoolStr (b : Bool) : String :=
  if b then "True" else "False"

/-- Element of a Redis `KEYS` reply: `bytes` (decoded with `.decode()`) or
already a `str`. -/
inductive RKey where
  | bytes (s : String)
  | str (s : String)

/-- The `k.decode() if isinstance(k, bytes) else k` conversion. -/
def RKey.decodeOf : RKey → String
  | .bytes s => s
  | .str s => s

namespace DragonflyClient

/-- Embedding of `DragonflyClient.store`: pickle the payload, call `setex`,
return `bool(result)`; on any exception return `False` and log the error.
`pickled` is the outcome of `pickle.dumps(data)` (payload size on success)
and `setexResult` the outcome of the `setex` call. -/
def store (default_ttl : Int) (ttl : Option Int) (key : String)
    (pickled : Except PyExc Nat) (setexResult : Except PyExc Bool) :
    Bool × List EmittedLog :=
  match pickled with
  | .error e =>
      (false, [⟨.error, "Failed to store data: key=" ++ key ++ ", error=" ++ e.message, .nil⟩])
  | .ok size =>
      match setexResult with
      | .error e =>
          (false, [⟨.error, "Failed to store data: key=" ++ key ++ ", error=" ++ e.message, .nil⟩])
      | .ok r =>
          (r, [⟨.debug, "Stored data: key=" ++ key ++ ", size=" ++ toString size
                ++ " bytes, ttl=" ++ toString (ttl.getD default_ttl) ++ "s", .nil⟩])

/-- Embedding of `DragonflyClient.retrieve`: `get` the raw bytes, return
`None` when absent, otherwise unpickle; on any exception return `None` and
log the error.  `getResult` is the outcome of `client.get(key)`
(`some (size, _)` meaning raw data of that size) and `unpickled` the outcome
of `pickle.loads` on it. -/
def retrieve (key : String) (getResult : Except PyExc (Option Nat))
    (unpickled : Except PyExc PyVal) : Option PyVal × List EmittedLog :=
  match getResult with
  | .error e =>
      (Option.none, [⟨.error, "Failed to retrieve data: key=" ++ key ++ ", error=" ++ e.message, .nil⟩])
  | .ok Option.none =>
      (Option.none, [⟨.debug, "Key not found: " ++ key, .nil⟩])
  | .ok (some size) =>
      match unpickled with
      | .error e =>
          (Option.none, [⟨.error, "Failed to retrieve data: key=" ++ key ++ ", error=" ++ e.message, .nil⟩])
      | .ok v =>
          (some v, [⟨.debug, "Retrieved data: key=" ++ key ++ ", size=" ++ toString size ++ " bytes", .nil⟩])

/-- Embedding of `DragonflyClient.delete`: `bool(client.delete(key))`; on any
exception return `False` and log the error. -/
def delete (key : String) (delResult : Except PyExc Int) : Bool × List EmittedLog :=
  match delResult with
  | .error e =>
      (false, [⟨.error, "Failed to delete key: key=" ++ key ++ ", error=" ++ e.message, .nil⟩])
  | .ok n =>
      (!(n == 0), [⟨.debug, "Deleted key: " ++ key ++ ", existed=" ++ pyBoolStr (!(n == 0)), .nil⟩])

/-- Embedding of `DragonflyClient.exists`: `bool(client.exists(key))`; on any
exception return `False` and log the error. -/
def existsKey (key : String) (existsResult : Except PyExc Int) : Bool × List EmittedLog :=
  match existsResult with
  | .error e =>
      (false, [⟨.error, "Failed to check key existence: key=" ++ key ++ ", error=" ++ e.message, .nil⟩])
  | .ok n => (!(n == 0), [])

/-- Embedding of `DragonflyClient.get_ttl`: return `client.ttl(key)`; on any
exception return `None` and log the error. -/
def get_ttl (key : String) (ttlResult : Except PyExc Int) : Option Int × List EmittedLog :=
  match ttlResult with
  | .error e =>
      (Option.none, [⟨.error, "Failed to get TTL: key=" ++ key ++ ", error=" ++ e.message, .nil⟩])
  | .ok n => (some n, [])

/-- Embedding of `DragonflyClient.set_ttl`: `bool(client.expire(key, ttl))`;
on any exception return `False` and log the error. -/
def set_ttl (key : String) (expireResult : Except PyExc Bool) : Bool × List EmittedLog :=
  match expireResult with
  | .error e =>
      (false, [⟨.error, "Failed to set TTL: key=" ++ key ++ ", error=" ++ e.message, .nil⟩])
  | .ok b => (b, [])

/-- Embedding of `DragonflyClient.keys`: decode each reply element; on any
exception return the empty list and log the error. -/
def keys (pattern : String) (keysResult : Except PyExc (List RKey)) :
    List String × List EmittedLog :=
  match keysResult with
  | .error e =>
      ([], [⟨.error, "Failed to list keys: pattern=" ++ pattern ++ ", error=" ++ e.message, .nil⟩])
  | .ok l => (l.map RKey.decodeOf, [])

end DragonflyClient

/-- Claim C9: every public cache-client operation translates every error of
the underlying key-value client or of (de)serialization into its failure
value — `False` for store/delete/exists/set_ttl, `None` for retrieve/get_ttl,
the empty list for keys — and logs the failure at error level; none of them
propagates the exception (each embedded operation is a total function whose
error branches are enumerated here). -/
theorem dragonfly_operations_never_raise (default_ttl : Int) (ttl : Option Int)
    (key pattern : String) (e : PyExc) (sx : Except PyExc Bool) (size : Nat)
    (up : Except PyExc PyVal) :
    DragonflyClient.store default_ttl ttl key (.error e) sx
      = (false, [⟨.error, "Failed to store data: key=" ++ key ++ ", error=" ++ e.message, .nil⟩]) ∧
    DragonflyClient.store default_ttl ttl key (.ok size) (.error e)
      = (false, [⟨.error, "Failed to store data: key=" ++ key ++ ", error=" ++ e.message, .nil⟩]) ∧
    DragonflyClient.retrieve key (.error e) up
      = (Option.none, [⟨.error, "Failed to retrieve data: key=" ++ key ++ ", error=" ++ e.message, .nil⟩]) ∧
    DragonflyClient.retrieve key (.ok (some size)) (.error e)
      = (Option.none, [⟨.error, "Failed to retrieve data: key=" ++ key ++ ", error=" ++ e.message, .nil⟩]) ∧
    DragonflyClient.delete key (.error e)
      = (false, [⟨.error, "Failed to delete key: key=" ++ key ++ ", error=" ++ e.message, .nil⟩]) ∧
    DragonflyClient.existsKey key (.error e)
      = (false, [⟨.error, "Failed to check key existence: key=" ++ key ++ ", error=" ++ e.message, .nil⟩]) ∧
    DragonflyClient.get_ttl key (.error e)
      = (Option.none, [⟨.error, "Failed to get TTL: key=" ++ key ++ ", error=" ++ e.message, .nil⟩]) ∧
    DragonflyClient.set_ttl key (.error e)
      = (false, [⟨.error, "Failed to set TTL: key=" ++ key ++ ", error=" ++ e.message, .nil⟩]) ∧
    DragonflyClient.keys pattern (.error e)
      = ([], [⟨.error, "Failed to list keys: pattern=" ++ pattern ++ ", error=" ++ e.message, .nil⟩]) :=
  ⟨rfl, rfl, rfl, rfl, rfl, rfl, rfl, rfl, rfl⟩

/-! ### Timestamps

`StructuredJSONFormatter.format` renders
`datetime.fromtimestamp(record.created, timezone.utc).isoformat()` and the
plain `logging.Formatter` renders `asctime` with
`datefmt="%Y-%m-%dT%H:%M:%S"`.  The record capture instant is modelled as
integer microseconds since the Unix epoch (non-negative); the plain
formatter, which in CPython formats `time.localtime`, is modelled with the
process running in UTC. -/

/-- Decimal rendering of `n` left-padded with zeros to width `w`. -/
def padZero (w : Nat) (n : Nat) : String :=
  let s := toString n
  String.mk (List.replicate (w - s.length) '0') ++ s

/-- Gregorian civil date (year, month, day) of the day `z` days after
1970-01-01 (the Howard Hinnant civil_from_days algorithm, restricted to
non-negative inputs). -/
def civilFromDays (z : Nat) : Nat × Nat × Nat :=
  let z' := z + 719468
  let era := z' / 146097
  let doe := z' % 146097
  let yoe := (doe - doe / 1460 + doe / 36524 - doe / 146096) / 365
  let y := yoe + era * 400
  let doy := doe - (365 * yoe + yoe / 4 - yoe / 100)
  let mp := (5 * doy + 2) / 153
  let d := doy - (153 * mp + 2) / 5 + 1
  let m := if mp < 10 then mp + 3 else mp - 9
  (if m ≤ 2 then y + 1 else y, m, d)

/-- Rendering of
`datetime.fromtimestamp(created, timezone.utc).isoformat()` for a capture
instant given as microseconds since the epoch: the microsecond part is
printed only when non-zero, and the UTC offset is always `+00:00`. -/
def epochIso (micros : Nat) : String :=
  let totalSec := micros / 1000000
  let micro := micros % 1000000
  let dmy := civilFromDays (totalSec / 86400)
  let secOfDay := totalSec % 86400
  padZero 4 dmy.1 ++ "-" ++ padZero 2 dmy.2.1 ++ "-" ++ padZero 2 dmy.2.2 ++ "T"
    ++ padZero 2 (secOfDay / 3600) ++ ":" ++ padZero 2 (secOfDay % 3600 / 60)
    ++ ":" ++ padZero 2 (secOfDay % 60)
    ++ (if micro = 0 then "" else "." ++ padZero 6 micro)
    ++ "+00:00"

/-- Rendering of `%(asctime)s` under `datefmt="%Y-%m-%dT%H:%M:%S"` for the
same capture instant (UTC process time). -/
def plainAsctime (micros : Nat) : String :=
  let totalSec := micros / 1000000
  let dmy := civilFromDays (totalSec / 86400)
  let secOfDay := totalSec % 86400
  padZero 4 dmy.1 ++ "-" ++ padZero 2 dmy.2.1 ++ "-" ++ padZero 2 dmy.2.2 ++ "T"
    ++ padZero 2 (secOfDay / 3600) ++ ":" ++ padZero 2 (secOfDay % 3600 / 60)
    ++ ":" ++ padZero 2 (secOfDay % 60)

/-! ### Log records and the two formatters installed by `configure_logging` -/

/-- Captured `record.exc_info`: exception type name, `str(exc)` when the
exception value is truthy (`None` otherwise), and the formatted traceback
lines. -/
structure ExcInfo where
  typeName : String
  message : Option String
  tracebackLines : List String

/-- Embedding of `logging.LogRecord` as consumed by the formatters:
its built-in attributes plus the call-site extra fields that were copied
into `record.__dict__`.  `msg` stands for `record.getMessage()` (the message
with `%` arguments already applied) and `createdMicros` for `record.created`
as microseconds since the epoch. -/
structure LogRecord where
  name : String
  levelname : String
  msg : String
  module : String
  funcName : String
  lineno : Int
  createdMicros : Nat
  excInfo : Option ExcInfo
  extras : PyDict

/-- Configuration state of `StructuredJSONFormatter` (its `__init__`
arguments). -/
structure StructuredJSONFormatter where
  service_name : String
  service_version : String
  environment : String
deriving DecidableEq

/-- Embedding of the plain `logging.Formatter` installed when
`json_output=False`:
`fmt="%(asctime)s - %(name)s - %(levelname)s - %(message)s"` with
`datefmt="%Y-%m-%dT%H:%M:%S"`.  Call-site extra fields and context do not
occur in the format string and are therefore ignored. -/
def plainFormat (r : LogRecord) : String :=
  plainAsctime r.createdMicros ++ " - " ++ r.name ++ " - " ++ r.levelname
    ++ " - " ++ r.msg

/-- Formatter attached to the handler `configure_logging` installs. -/
inductive FormatterChoice where
  | structured (f : StructuredJSONFormatter)
  | plain (fmt datefmt : String)
deriving DecidableEq

/-- State configured by `configure_logging`: the root logger handler list
(each handler carrying its formatter), the root level, and the levels it
forces on the noisy third-party loggers. -/
structure RootLoggerState where
  handlers : List FormatterChoice
  level : Nat
  urllib3Level : Nat
  httpxLevel : Nat
  httpcoreLevel : Nat
deriving DecidableEq

/-- Relevant environment variables read by `configure_logging`. -/
structure EnvVars where
  SERVICE_NAME : Option String
  SERVICE_VERSION : Option String
  ENVIRONMENT : Option String
  LOG_LEVEL : Option String

/-- Arguments of `configure_logging`. -/
structure ConfigArgs where
  service_name : Option String
  service_version : Option String
  environment : Option String
  log_level : Option String
  json_output : Bool

/-- Python `arg or os.getenv(NAME, dflt)`: a `None` or empty-string argument
falls back to the environment variable, which itself falls back to the
default. -/
def orEnv (arg : Option String) (envVal : Option String) (dflt : String) : String :=
  match arg with
  | some s => if s = "" then envVal.getD dflt else s
  | Option.none => envVal.getD dflt

/-- Numeric value of `getattr(logging, log_level.upper(), logging.INFO)` for
the level-name attributes of the `logging` module; any other name falls back
to `INFO`. -/
def levelValue (s : String) : Nat :=
  if s = "CRITICAL" then 50 else if s = "FATAL" then 50
  else if s = "ERROR" then 40 else if s = "WARNING" then 30
  else if s = "WARN" then 30 else if s = "INFO" then 20
  else if s = "DEBUG" then 10 else if s = "NOTSET" then 0 else 20

/-- Embedding of `configure_logging`: resolve each setting from the argument
or the environment, remove every existing root handler, install a single
stream handler whose formatter is `StructuredJSONFormatter(...)` when
`json_output` else the plain dash-separated `logging.Formatter`, set the
root level, and quiet urllib3/httpx/httpcore to WARNING. -/
def configure_logging (env : EnvVars) (a : ConfigArgs) (_st : RootLoggerState) :
    RootLoggerState :=
  let service_name := orEnv a.service_name env.SERVICE_NAME "unknown-service"
  let service_version := orEnv a.service_version env.SERVICE_VERSION "1.0.0"
  let environment := orEnv a.environment env.ENVIRONMENT "development"
  let log_level := orEnv a.log_level env.LOG_LEVEL "INFO"
  let fmtr :=
    if a.json_output then
      FormatterChoice.structured ⟨service_name, service_version, environment⟩
    else
      FormatterChoice.plain "%(asctime)s - %(name)s - %(levelname)s - %(message)s"
        "%Y-%m-%dT%H:%M:%S"
  { handlers := [fmtr]
    level := levelValue log_level.toUpper
    urllib3Level := 30
    httpxLevel := 30
    httpcoreLevel := 30 }

/-- Claim C10: `configure_logging` is idempotent and replacing — calling it
twice with the same arguments and environment leaves the root logger exactly
as one call does, and after a call exactly one stream handler is installed
(all prior handlers having been removed), carrying the formatter and level
determined by the arguments alone. -/
theorem configure_logging_idempotent (env : EnvVars) (a : ConfigArgs)
    (st st2 : RootLoggerState) :
    configure_logging env a (configure_logging env a st)
      = configure_logging env a st ∧
    (configure_logging env a st).handlers.length = 1 ∧
    configure_logging env a st = configure_logging env a st2 :=
  ⟨rfl, rfl, rfl⟩

/-- Concrete record used to exhibit the non-JSON formatting behaviour: an
INFO record with message `ok` at the epoch instant, carrying a call-site
field `flag` whose value is `None`. -/
def c1Record : LogRecord :=
  ⟨"app", "INFO", "ok", "test", "main", 1, 0, Option.none,
    .cons "flag" PyVal.none .nil⟩

/-- Concrete argument vector `configure_logging(service_name="test",
log_level="INFO", json_output=False)` with no environment variables set. -/
def c1Args : ConfigArgs :=
  ⟨some "test", Option.none, Option.none, some "INFO", false⟩

/-- Environment with none of the relevant variables set. -/
def emptyEnv : EnvVars :=
  ⟨Option.none, Option.none, Option.none, Option.none⟩

/-- Claim C1 (evaluation at the failing input): with `json_output=False`,
`configure_logging` installs the plain dash-separated `logging.Formatter`,
whose output for `c1Record` is `1970-01-01T00:00:00 - app - INFO - ok` —
a line with no bracketed tokens at all, in which the `None`-valued
call-site field is not rendered (`null` does not occur) and which is
entirely independent of the call-site fields.  This contradicts the claim
(and the Policy A bracketed rendering that the repository documents in
`__init__.py` and tests in `tests/test_logging.py` via the absent
`MilvusFormatter`). -/
theorem plain_formatter_is_not_policyA :
    (∀ st : RootLoggerState, (configure_logging emptyEnv c1Args st).handlers
      = [FormatterChoice.plain
          "%(asctime)s - %(name)s - %(levelname)s - %(message)s"
          "%Y-%m-%dT%H:%M:%S"]) ∧
    plainFormat c1Record = "1970-01-01T00:00:00 - app - INFO - ok" ∧
    ('[' ∈ (plainFormat c1Record).data) = False ∧
    ∀ e1 e2 : PyDict,
      plainFormat { c1Record with extras := e1 }
        = plainFormat { c1Record with extras := e2 } :=
  ⟨fun _ => rfl, by decide, by decide, fun _ _ => rfl⟩

/-! ### `StructuredJSONFormatter.format`

The formatter builds the `log_entry` dict — base members, then the context
snapshot (only when non-empty), then the OpenTelemetry trace correlation
members (only when the package imports and the current span is recording),
then the exception member, then every non-skipped call-site field from
`record.__dict__` — and serializes it with
`json.dumps(log_entry, ensure_ascii=False, separators=(",", ":"), default=str)`. -/

/-- Outcome of querying the trace context provider: the `opentelemetry`
cannot be imported, `get_current_span` yields no span, the span is not recording,
or a recording span with its ids and flags.  Only the last adds members. -/
inductive TraceState where
  | unavailable
  | noSpan
  | notRecording
  | recording (traceId spanId : Nat) (flags : Int)

/-- Zero-padded lowercase hex rendering `format(n, "0<w>x")`. -/
def natToHexPad (w : Nat) (n : Nat) : String :=
  let ds := Nat.toDigits 16 n
  String.mk (List.replicate (w - ds.length) '0' ++ ds)

/-- Keys the extras loop skips (`skip_keys` in the source). -/
def skipKeys : List String :=
  ["name", "msg", "args", "levelname", "levelno", "pathname",
   "filename", "module", "exc_info", "exc_text", "stack_info",
   "lineno", "funcName", "created", "msecs", "relativeCreated",
   "thread", "threadName", "processName", "process", "getMessage",
   "message", "taskName"]

/-- Attributes `logging.LogRecord.__init__` sets on every record; `extra`
keys colliding with these (or with `message`/`asctime`) make
`Logger.makeRecord` raise `KeyError`. -/
def recordAttrNames : List String :=
  ["name", "msg", "args", "levelname", "levelno", "pathname",
   "filename", "module", "exc_info", "exc_text", "stack_info",
   "lineno", "funcName", "created", "msecs", "relativeCreated",
   "thread", "threadName", "processName", "process", "taskName"]

/-- Python `key.startswith("_")`. -/
def startsWithUnderscore (k : String) : Bool :=
  match k.data with
  | [] => false
  | c :: _ => c == '_'

/-- Condition under which the extras loop copies a `record.__dict__` entry
into `log_entry`. -/
def allowedExtraKey (k : String) : Bool :=
  !(skipKeys.contains k) && !(startsWithUnderscore k)

/-- Base members of `log_entry`, in insertion order. -/
def baseEntry (f : StructuredJSONFormatter) (r : LogRecord) : PyDict :=
  PyDict.ofList
    [("timestamp", .str (epochIso r.createdMicros)),
     ("service", .str f.service_name),
     ("version", .str f.service_version),
     ("environment", .str f.environment),
     ("level", .str r.levelname),
     ("logger", .str r.name),
     ("message", .str r.msg),
     ("module", .str r.module),
     ("function", .str r.funcName),
     ("line", .int r.lineno)]

/-- Step `if context: log_entry["context"] = context`. -/
def ctxApply (ctx : PyDict) (d : PyDict) : PyDict :=
  if ctx.isEmpty then d else d.set "context" (.dict ctx)

/-- Step adding `trace_id`/`span_id`/`trace_flags` when a recording span is
available; `except ImportError: pass` and a non-recording span add
nothing. -/
def traceApply (ts : TraceState) (d : PyDict) : PyDict :=
  match ts with
  | .recording tid sid fl =>
      ((d.set "trace_id" (.str (natToHexPad 32 tid))).set "span_id"
        (.str (natToHexPad 16 sid))).set "trace_flags" (.int fl)
  | _ => d

/-- Conversion of a list of traceback lines into a Python list value. -/
def pyListOfStrings : List String → PyList
  | [] => .nil
  | s :: rest => .cons (.str s) (pyListOfStrings rest)

/-- Step adding the `exception` member when `record.exc_info` is set. -/
def excApply (ei : Option ExcInfo) (d : PyDict) : PyDict :=
  match ei with
  | Option.none => d
  | some e =>
      d.set "exception" (.dict (PyDict.ofList
        [("type", .str e.typeName),
         ("message", match e.message with
                     | some m => .str m
                     | Option.none => .none),
         ("traceback", .list (pyListOfStrings e.tracebackLines))]))

/-- The extras loop: assign every non-skipped, non-underscore call-site
field of `record.__dict__` into `log_entry`, in insertion order. -/
def extrasApply (d : PyDict) : PyDict → PyDict
  | .nil => d
  | .cons k v rest => extrasApply (if allowedExtraKey k then d.set k v else d) rest

/-- The complete `log_entry` dict built by `StructuredJSONFormatter.format`
for a record, a context snapshot, and a trace-provider state. -/
def logEntry (f : StructuredJSONFormatter) (r : LogRecord) (ctx : PyDict)
    (ts : TraceState) : PyDict :=
  extrasApply (excApply r.excInfo (traceApply ts (ctxApply ctx (baseEntry f r)))) r.extras

/-- JSON escaping of one character (`json.dumps` with
`ensure_ascii=False`). -/
def jsonEscapeChar (c : Char) : String :=
  if c = '"' then "\\\""
  else if c = '\\' then "\\\\"
  else if c = '\n' then "\\n"
  else if c = '\r' then "\\r"
  else if c = '\t' then "\\t"
  else if c = Char.ofNat 8 then "\\b"
  else if c = Char.ofNat 12 then "\\f"
  else if c.toNat < 32 then "\\u" ++ natToHexPad 4 c.toNat
  else String.singleton c

/-- JSON escaping of a string. -/
def jsonEscape (s : String) : String :=
  s.data.foldl (fun acc c => acc ++ jsonEscapeChar c) ""

/-- Textual rendering of a rational standing in for a Python float
(integral values without a decimal part; the non-integral rendering is a
model of float repr and is not relied on by any claim). -/
def ratDump (q : ℚ) : String :=
  if q.den = 1 then toString q.num
  else toString q.num ++ "/" ++ toString q.den

mutual

/-- Serialization of one value by `json.dumps` with
`separators=(",", ":")`. -/
def dumpVal : PyVal → String
  | .none => "null"
  | .bool true => "true"
  | .bool false => "false"
  | .int n => toString n
  | .num q => ratDump q
  | .str s => "\"" ++ jsonEscape s ++ "\""
  | .list l => "[" ++ dumpList l ++ "]"
  | .dict d => "\x7b" ++ dumpDict d ++ "\x7d"

/-- Serialization of the elements of a JSON array. -/
def dumpList : PyList → String
  | .nil => ""
  | .cons v .nil => dumpVal v
  | .cons v (.cons v2 rest) => dumpVal v ++ "," ++ dumpList (.cons v2 rest)

/-- Serialization of the members of a JSON object. -/
def dumpDict : PyDict → String
  | .nil => ""
  | .cons k v .nil => "\"" ++ jsonEscape k ++ "\":" ++ dumpVal v
  | .cons k v (.cons k2 v2 rest) =>
      "\"" ++ jsonEscape k ++ "\":" ++ dumpVal v ++ ","
        ++ dumpDict (.cons k2 v2 rest)

end

/-- Embedding of `StructuredJSONFormatter.format`: build `log_entry` and
serialize it. -/
def format (f : StructuredJSONFormatter) (r : LogRecord) (ctx : PyDict)
    (ts : TraceState) : String :=
  "\x7b" ++ dumpDict (logEntry f r ctx ts) ++ "\x7d"

/-- Two invocations of the formatter on the same record, context snapshot
and trace state. -/
def formatTwice (f : StructuredJSONFormatter) (r : LogRecord) (ctx : PyDict)
    (ts : TraceState) : String × String :=
  (format f r ctx ts, format f r ctx ts)

/-- Claim C6: formatting is deterministic — for every fixed record (capture
time fixed inside the record), context snapshot and trace state, invoking
the formatter twice yields byte-identical strings.  The embedded `format`
is a function of exactly these inputs (the source reads nothing else:
`record.created` is captured in the record, the context comes from the
`ContextVar` snapshot, and the trace members from the provider state). -/
theorem format_deterministic (f : StructuredJSONFormatter) (r : LogRecord)
    (ctx : PyDict) (ts : TraceState) :
    (formatTwice f r ctx ts).1 = (formatTwice f r ctx ts).2 :=
  rfl

/-! ### The call-site `extra` mechanism

The repository attaches call-site fields with `logger.info(msg, extra=...)`
(as `stage` does).  `logging.Logger.makeRecord` copies each `extra` key into
`record.__dict__` but raises `KeyError("Attempt to overwrite <key> in
LogRecord")` — CPython quotes the key with `%r` — when the key is `message`
or `asctime` or collides with a built-in record attribute. -/

/-- Test `key in ["message", "asctime"] or key in rv.__dict__` from
`Logger.makeRecord`. -/
def badKeyTest (k : String) : Bool :=
  k == "message" || k == "asctime" || recordAttrNames.contains k

/-- First offending `extra` key, scanning in insertion order. -/
def badExtraKey : PyDict → Option String
  | .nil => Option.none
  | .cons k _ rest => if badKeyTest k then some k else badExtraKey rest

/-- Embedding of `Logger.makeRecord` restricted to what the formatter
consumes: either the record with the extras attached, or the `KeyError`
message. -/
def makeRecord (name levelname msg module funcName : String) (lineno : Int)
    (createdMicros : Nat) (excInfo : Option ExcInfo) (extra : PyDict) :
    Except String LogRecord :=
  match badExtraKey extra with
  | some k => .error ("Attempt to overwrite " ++ k ++ " in LogRecord")
  | Option.none =>
      .ok ⟨name, levelname, msg, module, funcName, lineno, createdMicros,
        excInfo, extra⟩

/-- One log call through `makeRecord` followed by
`StructuredJSONFormatter.format`, returning the members of the emitted
record (or the `KeyError` that aborted the call). -/
def logCallEntries (f : StructuredJSONFormatter) (ctx : PyDict)
    (ts : TraceState) (name levelname msg module funcName : String)
    (lineno : Int) (createdMicros : Nat) (excInfo : Option ExcInfo)
    (extra : PyDict) : Except String PyDict :=
  match makeRecord name levelname msg module funcName lineno createdMicros
      excInfo extra with
  | .error m => .error m
  | .ok r => .ok (logEntry f r ctx ts)

/-- Member of the emitted record under a key, when a record was emitted at
all. -/
def emittedLookup (res : Except String PyDict) (k : String) : Option PyVal :=
  match res with
  | .ok d => d.lookup k
  | .error _ => Option.none

/-! ### Association-list lemmas for dict assignment -/

/-- Structural induction on a dict alone (the values are not traversed),
usable although `PyDict` lives in a mutual inductive block. -/
@[induction_eliminator]
theorem PyDict.inductionOn {motive : PyDict → Prop} (nil : motive .nil)
    (cons : ∀ (k : String) (v : PyVal) (rest : PyDict),
      motive rest → motive (.cons k v rest)) :
    ∀ d, motive d
  | .nil => nil
  | .cons k v rest => cons k v rest (PyDict.inductionOn nil cons rest)

/-- Assigning a key and looking it up yields the assigned value. -/
theorem PyDict.lookup_set_self (d : PyDict) (k : String) (v : PyVal) :
    (d.set k v).lookup k = some v := by
  induction d with
  | nil => simp [PyDict.set, PyDict.lookup]
  | cons k1 v1 rest ih =>
      by_cases h : k1 = k
      · subst h; simp [PyDict.set, PyDict.lookup]
      · simp [PyDict.set, PyDict.lookup, h, ih]

/-- Assigning one key leaves lookups of other keys unchanged. -/
theorem PyDict.lookup_set_ne (d : PyDict) (k k2 : String) (v : PyVal)
    (h : k ≠ k2) : (d.set k v).lookup k2 = d.lookup k2 := by
  induction d with
  | nil => simp [PyDict.set, PyDict.lookup, h]
  | cons k1 v1 rest ih =>
      by_cases h1 : k1 = k
      · subst h1; simp [PyDict.set, PyDict.lookup, h]
      · simp [PyDict.set, PyDict.lookup, h1, ih]

/-- Reserved structured-record member names that the standard `extra`
mechanism accepts (they are not built-in record attributes); the spec lists
them among the reserved member names of the structured policy. -/
def allowedReservedNames : List String :=
  ["timestamp", "service", "version", "environment", "level", "logger",
   "context", "function", "line"]

/-- Helper for claim C7: a log call whose single call-site field has an
accepted, non-skipped key emits a record in which that member holds the
caller-supplied value (the extras loop assigns it last, overriding any
earlier member of the same name). -/
theorem logCall_lookup_extra {f : StructuredJSONFormatter} {ctx : PyDict}
    {ts : TraceState} {name levelname msg module funcName : String}
    {lineno : Int} {createdMicros : Nat} {excInfo : Option ExcInfo}
    {k : String} {v : PyVal} (hbad : badKeyTest k = false)
    (hallow : allowedExtraKey k = true) :
    emittedLookup (logCallEntries f ctx ts name levelname msg module funcName
      lineno createdMicros excInfo (.cons k v .nil)) k = some v := by
  have h0 : badExtraKey (.cons k v .nil) = Option.none := by
    simp [badExtraKey, hbad]
  have h1 : logCallEntries f ctx ts name levelname msg module funcName lineno
      createdMicros excInfo (.cons k v .nil)
      = .ok (logEntry f ⟨name, levelname, msg, module, funcName, lineno,
          createdMicros, excInfo, .cons k v .nil⟩ ctx ts) := by
    simp [logCallEntries, makeRecord, h0]
  rw [h1]
  show (logEntry f ⟨name, levelname, msg, module, funcName, lineno,
      createdMicros, excInfo, .cons k v .nil⟩ ctx ts).lookup k = some v
  have h2 : logEntry f ⟨name, levelname, msg, module, funcName, lineno,
      createdMicros, excInfo, .cons k v .nil⟩ ctx ts
      = (excApply excInfo (traceApply ts (ctxApply ctx (baseEntry f
          ⟨name, levelname, msg, module, funcName, lineno, createdMicros,
            excInfo, .cons k v .nil⟩)))).set k v := by
    simp [logEntry, extrasApply, hallow]
  rw [h2]
  exact PyDict.lookup_set_self _ k v

/-- Claim C7 (amended): for every call-site field whose name is one of the
reserved structured-record member names that the `extra` mechanism accepts —
`timestamp`, `service`, `version`, `environment`, `level`, `logger`,
`context`, `function`, `line` — the caller-supplied value wins: the emitted
record contains the caller value for that member.  (Fields named `message`
or `module` are instead rejected at the call site, see the
counterexample.) -/
theorem reserved_collision_caller_wins (k : String)
    (hk : k ∈ allowedReservedNames) (v : PyVal) (f : StructuredJSONFormatter)
    (ctx : PyDict) (ts : TraceState) (name levelname msg module funcName : String)
    (lineno : Int) (createdMicros : Nat) (excInfo : Option ExcInfo) :
    emittedLookup (logCallEntries f ctx ts name levelname msg module funcName
      lineno createdMicros excInfo (.cons k v .nil)) k = some v := by
  fin_cases hk <;> exact logCall_lookup_extra (by decide) (by decide)

/-- Witness for claim C7 at a concrete input: a call-site field `service`
overrides the formatter-supplied `service` member. -/
theorem reserved_collision_caller_wins_witness :
    emittedLookup (logCallEntries ⟨"svc", "1.0.0", "dev"⟩ PyDict.nil
      .unavailable "app" "INFO" "hi" "test" "main" 1 0 Option.none
      (.cons "service" (.str "other") .nil)) "service" = some (.str "other") :=
  reserved_collision_caller_wins "service" (by decide) (.str "other")
    ⟨"svc", "1.0.0", "dev"⟩ PyDict.nil .unavailable "app" "INFO" "hi" "test"
    "main" 1 0 Option.none

/-- Counterexample for claim C7 as stated: the reserved member names
`module` and `message` are also built-in record attributes, so a call-site
field with either name makes `Logger.makeRecord` raise `KeyError` — no
record is emitted at all, hence the emitted record does not contain the
caller value for that member. -/
theorem reserved_collision_counterexample :
    logCallEntries ⟨"svc", "1.0.0", "dev"⟩ PyDict.nil .unavailable "app"
        "INFO" "hi" "test" "main" 1 0 Option.none
        (.cons "module" (.str "boom") .nil)
      = .error "Attempt to overwrite module in LogRecord" ∧
    logCallEntries ⟨"svc", "1.0.0", "dev"⟩ PyDict.nil .unavailable "app"
        "INFO" "hi" "test" "main" 1 0 Option.none
        (.cons "message" (.str "boom") .nil)
      = .error "Attempt to overwrite message in LogRecord" ∧
    emittedLookup (logCallEntries ⟨"svc", "1.0.0", "dev"⟩ PyDict.nil
        .unavailable "app" "INFO" "hi" "test" "main" 1 0 Option.none
        (.cons "module" (.str "boom") .nil)) "module" = Option.none :=
  ⟨rfl, rfl, rfl⟩

/-! ### Trace members and the trace-provider state (claim C8) -/

/-- The three members contributed by the trace context provider. -/
def traceNames : List String :=
  ["trace_id", "span_id", "trace_flags"]

/-- Predicate selecting the members not contributed by the trace
provider. -/
def notTrace (k : String) : Bool :=
  !(traceNames.contains k)

/-- Filtering commutes with an assignment whose key is dropped. -/
theorem PyDict.filterKeys_set_false (p : String → Bool) (d : PyDict)
    (k : String) (v : PyVal) (h : p k = false) :
    (d.set k v).filterKeys p = d.filterKeys p := by
  induction d with
  | nil => simp [PyDict.set, PyDict.filterKeys, h]
  | cons k1 v1 rest ih =>
      by_cases h1 : k1 = k
      · simp [PyDict.set, PyDict.filterKeys, h1, h]
      · cases hp : p k1 <;> simp [PyDict.set, PyDict.filterKeys, h1, hp, ih]

/-- Filtering commutes with an assignment whose key is kept. -/
theorem PyDict.filterKeys_set_true (p : String → Bool) (d : PyDict)
    (k : String) (v : PyVal) (h : p k = true) :
    (d.set k v).filterKeys p = (d.filterKeys p).set k v := by
  induction d with
  | nil => simp [PyDict.set, PyDict.filterKeys, h]
  | cons k1 v1 rest ih =>
      by_cases h1 : k1 = k
      · simp [PyDict.set, PyDict.filterKeys, h1, h]
      · cases hp : p k1 <;> simp [PyDict.set, PyDict.filterKeys, h1, hp, ih]

/-- Filtering a dict none of whose keys is dropped is the identity. -/
theorem PyDict.filterKeys_eq_self (p : String → Bool) (d : PyDict)
    (h : ∀ k ∈ d.keysOf, p k = true) : d.filterKeys p = d := by
  induction d with
  | nil => rfl
  | cons k v rest ih =>
      have hk : p k = true := h k (by simp [PyDict.keysOf])
      have hr : ∀ k2 ∈ rest.keysOf, p k2 = true := by
        intro k2 hm; exact h k2 (by simp [PyDict.keysOf, hm])
      simp [PyDict.filterKeys, hk, ih hr]

/-- Keys after an assignment: the assigned key or an original key. -/
theorem PyDict.mem_keysOf_set (d : PyDict) (k : String) (v : PyVal)
    (a : String) (h : a ∈ (d.set k v).keysOf) : a = k ∨ a ∈ d.keysOf := by
  induction d with
  | nil =>
      simp [PyDict.set, PyDict.keysOf] at h
      exact Or.inl h
  | cons k1 v1 rest ih =>
      by_cases h1 : k1 = k
      · simp [PyDict.set, PyDict.keysOf, h1] at h
        rcases h with h | h
        · exact Or.inl h
        · exact Or.inr (by simp [PyDict.keysOf, h])
      · simp [PyDict.set, PyDict.keysOf, h1] at h
        rcases h with h | h
        · exact Or.inr (by simp [PyDict.keysOf, h])
        · rcases ih h with h2 | h2
          · exact Or.inl h2
          · exact Or.inr (by simp [PyDict.keysOf, h2])

/-- The extras loop commutes with filtering when no extra key is
dropped. -/
theorem extrasApply_filterKeys (p : String → Bool) :
    ∀ ex : PyDict, (∀ k ∈ ex.keysOf, p k = true) →
      ∀ d, (extrasApply d ex).filterKeys p = extrasApply (d.filterKeys p) ex := by
  intro ex
  induction ex with
  | nil => intro _ d; rfl
  | cons k v rest ih =>
      intro h d
      have hk : p k = true := h k (by simp [PyDict.keysOf])
      have hr : ∀ k2 ∈ rest.keysOf, p k2 = true := by
        intro k2 hm; exact h k2 (by simp [PyDict.keysOf, hm])
      by_cases ha : allowedExtraKey k = true
      · have l1 : extrasApply d (.cons k v rest) = extrasApply (d.set k v) rest := by
          simp [extrasApply, ha]
        have l2 : extrasApply (d.filterKeys p) (.cons k v rest)
            = extrasApply ((d.filterKeys p).set k v) rest := by
          simp [extrasApply, ha]
        rw [l1, l2, ih hr, PyDict.filterKeys_set_true p d k v hk]
      · have ha2 : allowedExtraKey k = false := by simpa using ha
        have l1 : extrasApply d (.cons k v rest) = extrasApply d rest := by
          simp [extrasApply, ha2]
        have l2 : extrasApply (d.filterKeys p) (.cons k v rest)
            = extrasApply (d.filterKeys p) rest := by
          simp [extrasApply, ha2]
        rw [l1, l2, ih hr]

/-- The extras loop leaves lookups of keys that occur in no extra
unchanged. -/
theorem extrasApply_lookup_ne (k : String) :
    ∀ ex : PyDict, (∀ k2 ∈ ex.keysOf, k2 ≠ k) →
      ∀ d, (extrasApply d ex).lookup k = d.lookup k := by
  intro ex
  induction ex with
  | nil => intro _ d; rfl
  | cons k1 v rest ih =>
      intro h d
      have hk : k1 ≠ k := h k1 (by simp [PyDict.keysOf])
      have hr : ∀ k2 ∈ rest.keysOf, k2 ≠ k := by
        intro k2 hm; exact h k2 (by simp [PyDict.keysOf, hm])
      by_cases ha : allowedExtraKey k1 = true
      · have l1 : extrasApply d (.cons k1 v rest) = extrasApply (d.set k1 v) rest := by
          simp [extrasApply, ha]
        rw [l1, ih hr, PyDict.lookup_set_ne d k1 k v hk]
      · have ha2 : allowedExtraKey k1 = false := by simpa using ha
        have l1 : extrasApply d (.cons k1 v rest) = extrasApply d rest := by
          simp [extrasApply, ha2]
        rw [l1, ih hr]

/-- Keys of the base members all lie outside the trace member names. -/
theorem mem_baseEntry_keys (f : StructuredJSONFormatter) (r : LogRecord)
    (a : String) (h : a ∈ (baseEntry f r).keysOf) : notTrace a = true := by
  have hb : (baseEntry f r).keysOf
      = ["timestamp", "service", "version", "environment", "level",
         "logger", "message", "module", "function", "line"] := rfl
  rw [hb] at h
  fin_cases h <;> rfl

/-- Keys after the context step all lie outside the trace member names. -/
theorem mem_ctxApply_keys (ctx d : PyDict) (a : String)
    (hd : ∀ b ∈ d.keysOf, notTrace b = true)
    (h : a ∈ (ctxApply ctx d).keysOf) : notTrace a = true := by
  unfold ctxApply at h
  by_cases hc : ctx.isEmpty
  · rw [if_pos hc] at h; exact hd a h
  · rw [if_neg hc] at h
    rcases PyDict.mem_keysOf_set d "context" (.dict ctx) a h with h2 | h2
    · rw [h2]; rfl
    · exact hd a h2

/-- Keys after the exception step all lie outside the trace member
names. -/
theorem mem_excApply_keys (ei : Option ExcInfo) (d : PyDict) (a : String)
    (hd : ∀ b ∈ d.keysOf, notTrace b = true)
    (h : a ∈ (excApply ei d).keysOf) : notTrace a = true := by
  cases ei with
  | none => exact hd a h
  | some e =>
      rcases PyDict.mem_keysOf_set d "exception" _ a h with h2 | h2
      · rw [h2]; rfl
      · exact hd a h2

/-- Filtering away the trace members undoes the trace step over a dict with
no trace-named key. -/
theorem filterKeys_traceApply (C : PyDict)
    (hC : ∀ b ∈ C.keysOf, notTrace b = true) (ts : TraceState) :
    (traceApply ts C).filterKeys notTrace = C := by
  cases ts with
  | recording tid sid fl =>
      show (((C.set "trace_id" _).set "span_id" _).set "trace_flags" _).filterKeys
        notTrace = C
      rw [PyDict.filterKeys_set_false notTrace _ "trace_flags" _ rfl,
        PyDict.filterKeys_set_false notTrace _ "span_id" _ rfl,
        PyDict.filterKeys_set_false notTrace _ "trace_id" _ rfl]
      exact PyDict.filterKeys_eq_self notTrace C hC
  | unavailable => exact PyDict.filterKeys_eq_self notTrace C hC
  | noSpan => exact PyDict.filterKeys_eq_self notTrace C hC
  | notRecording => exact PyDict.filterKeys_eq_self notTrace C hC

/-- Lookup of a non-`context`, non-`exception` key absent from the base
members stays absent through the context and exception steps. -/
theorem preEntry_lookup_none (f : StructuredJSONFormatter) (r : LogRecord)
    (ctx : PyDict) (k : String) (hk1 : (baseEntry f r).lookup k = Option.none)
    (hk2 : k ≠ "context") (hk3 : k ≠ "exception") :
    (excApply r.excInfo (ctxApply ctx (baseEntry f r))).lookup k = Option.none := by
  have h1 : (ctxApply ctx (baseEntry f r)).lookup k = Option.none := by
    unfold ctxApply
    by_cases hc : ctx.isEmpty
    · rw [if_pos hc]; exact hk1
    · rw [if_neg hc,
        PyDict.lookup_set_ne (baseEntry f r) "context" k _ (Ne.symm hk2)]
      exact hk1
  cases r.excInfo with
  | none => exact h1
  | some e =>
      show ((ctxApply ctx (baseEntry f r)).set "exception" _).lookup k = Option.none
      rw [PyDict.lookup_set_ne _ "exception" k _ (Ne.symm hk3)]
      exact h1

/-- Claim C8 (amended): provided no call-site field reuses one of the trace
member names, a record formatted while the trace provider is unavailable
(`opentelemetry` not importable) has the very same members as with
`get_current_span` yielding no span or a non-recording span; it contains no
`trace_id`, `span_id` or `trace_flags` member; and the members of a record
formatted with a recording span, minus the three trace members, are exactly
the members formatted with the provider absent.  The provider query itself
is modelled as a total `TraceState` outcome: the only exception the source
expects, `ImportError`, is swallowed by `except ImportError: pass` and
becomes the `unavailable` state. -/
theorem trace_fields_absent (f : StructuredJSONFormatter) (r : LogRecord)
    (ctx : PyDict) (hex : ∀ k ∈ r.extras.keysOf, notTrace k = true) :
    logEntry f r ctx .unavailable = logEntry f r ctx .noSpan ∧
    logEntry f r ctx .unavailable = logEntry f r ctx .notRecording ∧
    (∀ k ∈ traceNames, (logEntry f r ctx .unavailable).lookup k = Option.none) ∧
    ∀ tid sid fl, (logEntry f r ctx (.recording tid sid fl)).filterKeys notTrace
      = logEntry f r ctx .unavailable := by
  have hpre : ∀ b ∈ (excApply r.excInfo (ctxApply ctx (baseEntry f r))).keysOf,
      notTrace b = true := by
    intro b hb
    exact mem_excApply_keys r.excInfo _ b
      (fun c hc => mem_ctxApply_keys ctx _ c (mem_baseEntry_keys f r) hc) hb
  refine ⟨rfl, rfl, ?_, ?_⟩
  · intro k hk
    have hne : ∀ k2 ∈ r.extras.keysOf, k2 ≠ k := by
      intro k2 hm heq
      have h2 := hex k2 hm
      rw [heq] at h2
      fin_cases hk <;> exact absurd h2 (by decide)
    have e0 : logEntry f r ctx .unavailable
        = extrasApply (excApply r.excInfo (ctxApply ctx (baseEntry f r)))
            r.extras := rfl
    rw [e0, extrasApply_lookup_ne k r.extras hne _]
    fin_cases hk
    · exact preEntry_lookup_none f r ctx "trace_id" rfl (by decide) (by decide)
    · exact preEntry_lookup_none f r ctx "span_id" rfl (by decide) (by decide)
    · exact preEntry_lookup_none f r ctx "trace_flags" rfl (by decide) (by decide)
  · intro tid sid fl
    have e1 : (logEntry f r ctx (.recording tid sid fl)).filterKeys notTrace
        = extrasApply ((excApply r.excInfo (traceApply (.recording tid sid fl)
            (ctxApply ctx (baseEntry f r)))).filterKeys notTrace) r.extras :=
      extrasApply_filterKeys notTrace r.extras hex _
    have hCk : ∀ b ∈ (ctxApply ctx (baseEntry f r)).keysOf, notTrace b = true :=
      fun c hc => mem_ctxApply_keys ctx _ c (mem_baseEntry_keys f r) hc
    have e2 : (excApply r.excInfo (traceApply (.recording tid sid fl)
        (ctxApply ctx (baseEntry f r)))).filterKeys notTrace
        = excApply r.excInfo (ctxApply ctx (baseEntry f r)) := by
      cases r.excInfo with
      | none =>
          show (traceApply (.recording tid sid fl)
              (ctxApply ctx (baseEntry f r))).filterKeys notTrace
            = ctxApply ctx (baseEntry f r)
          exact filterKeys_traceApply _ hCk _
      | some e =>
          show ((traceApply (.recording tid sid fl) _).set "exception" _).filterKeys
            notTrace = (ctxApply ctx (baseEntry f r)).set "exception" _
          rw [PyDict.filterKeys_set_true notTrace _ "exception" _ rfl,
            filterKeys_traceApply _ hCk]
    rw [e1, e2]
    rfl

/-- Witness for claim C8 at a concrete input: a record with one ordinary
call-site field, formatted without the provider, has no `trace_id`
member. -/
theorem trace_fields_absent_witness :
    (logEntry ⟨"svc", "1.0.0", "dev"⟩
      ⟨"app", "INFO", "hi", "test", "main", 1, 0, Option.none,
        .cons "flag" PyVal.none .nil⟩ PyDict.nil .unavailable).lookup "trace_id"
      = Option.none :=
  (trace_fields_absent ⟨"svc", "1.0.0", "dev"⟩
    ⟨"app", "INFO", "hi", "test", "main", 1, 0, Option.none,
      .cons "flag" PyVal.none .nil⟩ PyDict.nil
    (by intro k hk
        have h2 : k = "flag" := by simpa [PyDict.keysOf] using hk
        rw [h2]; rfl)).2.2.1 "trace_id" (by decide)

/-- Counterexample for claim C8 as stated: a call-site field named
`trace_id` (accepted by the `extra` mechanism) survives into the formatted
record even when the trace provider is absent, so the record does contain a
`trace_id` member. -/
theorem trace_field_present_counterexample :
    (logEntry ⟨"svc", "1.0.0", "dev"⟩
      ⟨"app", "INFO", "hi", "test", "main", 1, 0, Option.none,
        .cons "trace_id" (.str "deadbeef") .nil⟩ PyDict.nil
      .unavailable).lookup "trace_id" = some (.str "deadbeef") :=
  rfl

/-! ### The `stage` timed-operation helper

`stage(operation, logger, log_start, **context)` records
`time.perf_counter()` (modelled as a rational reading `t0`), builds
`stage_context = \x7b"operation": operation, **context\x7d`, optionally logs
the start marker (before the `try` block), runs the wrapped body (which may
mutate the yielded `stage_context` dict and may raise), takes a second
reading `t1`, and emits a completion record (`logger.info`, inside the
`try`) or a failure record (`logger.error`, in the `except Exception`
branch, followed by a bare `raise`).  Every emission goes through
`Logger.makeRecord`, so a stage-context key colliding with a built-in
`LogRecord` attribute (`badKeyTest`) makes the logging call itself raise
`KeyError`: a `KeyError` from the start marker propagates before the body
runs; one from the completion call is caught by the `except` branch, whose
own `logger.error` then raises the same way; one from the failure call
replaces the exception being handled.  Python `round(x, 2)` is modelled as
rounding to a multiple of 1/100 (round half up; the claims only use the
sign of the value and presence). -/

/-- The `KeyError` raised by `Logger.makeRecord` for an offending `extra`
key (CPython renders the key with `%r`). -/
def keyErrorOf (k : String) : PyExc :=
  ⟨"KeyError", "Attempt to overwrite " ++ k ++ " in LogRecord"⟩

/-- One `logger.<level>(message, extra=...)` call: `Logger.makeRecord`
rejects an extra key colliding with a built-in record attribute with
`KeyError`, otherwise the record is emitted. -/
def logEmit (level : LogLevel) (message : String) (extra : PyDict) :
    Except PyExc EmittedLog :=
  match badExtraKey extra with
  | some k => .error (keyErrorOf k)
  | Option.none => .ok ⟨level, message, extra⟩

/-- Rounding of `round(x, 2)` on the rational model. -/
def round2 (q : ℚ) : ℚ :=
  ((round (q * 100) : ℤ) : ℚ) / 100

/-- Rounding to two places preserves non-negativity. -/
theorem round2_nonneg (q : ℚ) (h : 0 ≤ q) : 0 ≤ round2 q := by
  unfold round2
  have h1 : (0 : ℤ) ≤ round (q * 100) := by
    rw [round_eq]
    refine Int.le_floor.mpr ?_
    push_cast
    linarith
  have h2 : (0 : ℚ) ≤ ((round (q * 100) : ℤ) : ℚ) := by exact_mod_cast h1
  positivity

/-- The initial `stage_context` dict
`\x7b"operation": operation, **context\x7d`. -/
def stageCtx0 (operation : String) (context : PyDict) : PyDict :=
  PyDict.merge (.cons "operation" (.str operation) .nil) context

/-- Extra fields of the completion record:
`\x7b**stage_context, "duration_ms": duration\x7d`. -/
def completionExtra (sc : PyDict) (dm : ℚ) : PyDict :=
  sc.set "duration_ms" (.num dm)

/-- Extra fields of the failure record: the stage context plus
`duration_ms`, `error` (`str(e)`) and `error_type` (`type(e).__name__`). -/
def failureExtra (sc : PyDict) (dm : ℚ) (e : PyExc) : PyDict :=
  ((sc.set "duration_ms" (.num dm)).set "error" (.str e.message)).set
    "error_type" (.str e.typeName)

/-- The start marker emitted when `log_start` is true. -/
def startRecords (operation : String) (logStart : Bool) (context : PyDict) :
    List EmittedLog :=
  if logStart then [⟨.info, operation ++ "_started", stageCtx0 operation context⟩]
  else []

/-- The `try ... yield ... except Exception` part of `stage`: run the body,
then emit the completion record inside the `try` (a `KeyError` from it is
caught by the `except` branch like any body exception) or the failure
record in the `except` branch (a `KeyError` from that call replaces the
exception being handled; otherwise the bare `raise` re-raises the original
exception). -/
def stageTryBlock (operation : String) (context : PyDict) (t0 t1 : ℚ)
    (body : PyDict → PyDict × Option PyExc) : List EmittedLog × Option PyExc :=
  let res := body (stageCtx0 operation context)
  let duration_ms := round2 ((t1 - t0) * 1000)
  match res.2 with
  | Option.none =>
      match logEmit .info (operation ++ "_completed")
          (completionExtra res.1 duration_ms) with
      | .ok lg => ([lg], Option.none)
      | .error ke =>
          match logEmit .error (operation ++ "_failed")
              (failureExtra res.1 duration_ms ke) with
          | .ok lg2 => ([lg2], some ke)
          | .error ke2 => ([], some ke2)
  | some e =>
      match logEmit .error (operation ++ "_failed")
          (failureExtra res.1 duration_ms e) with
      | .ok lg => ([lg], some e)
      | .error ke => ([], some ke)

/-- Embedding of the `stage` context manager.  The wrapped body is a
function from the yielded `stage_context` dict to its final contents
together with the exception it raises, if any; `t0` and `t1` are the two
monotonic-clock readings.  The start marker is emitted before the `try`
block, so a `KeyError` from it propagates without running the body. -/
def stage (operation : String) (logStart : Bool) (context : PyDict)
    (t0 t1 : ℚ) (body : PyDict → PyDict × Option PyExc) :
    List EmittedLog × Option PyExc :=
  if logStart then
    match logEmit .info (operation ++ "_started") (stageCtx0 operation context) with
    | .error ke => ([], some ke)
    | .ok lg =>
        let res := stageTryBlock operation context t0 t1 body
        (lg :: res.1, res.2)
  else
    stageTryBlock operation context t0 t1 body

/-- Count of emitted records carrying a given message. -/
def countMsg (m : String) (l : List EmittedLog) : Nat :=
  (l.filter (fun lg => lg.message == m)).length

/-- Appending different suffixes to the same string yields distinct
strings (stated on the `==` test used by `countMsg`). -/
theorem append_beq_false (s a b : String) (h : a.data ≠ b.data) :
    (s ++ a == s ++ b) = false := by
  rw [beq_eq_false_iff_ne]
  intro hc
  apply h
  have h2 := congrArg String.data hc
  rw [String.data_append, String.data_append] at h2
  exact List.append_cancel_left h2

/-- A dict none of whose keys is a rejected `extra` key passes the
`Logger.makeRecord` check. -/
theorem badExtraKey_none_of (d : PyDict)
    (h : ∀ k ∈ d.keysOf, badKeyTest k = false) :
    badExtraKey d = Option.none := by
  induction d with
  | nil => rfl
  | cons k v rest ih =>
      have hk : badKeyTest k = false := h k (by simp [PyDict.keysOf])
      have hr : ∀ k2 ∈ rest.keysOf, badKeyTest k2 = false := by
        intro k2 hm; exact h k2 (by simp [PyDict.keysOf, hm])
      simp [badExtraKey, hk, ih hr]

/-- Assigning an accepted key preserves acceptance of every key. -/
theorem keysOf_set_clean (d : PyDict) (k0 : String) (v : PyVal)
    (h : ∀ k ∈ d.keysOf, badKeyTest k = false) (h0 : badKeyTest k0 = false) :
    ∀ k ∈ (d.set k0 v).keysOf, badKeyTest k = false := by
  intro k hk
  rcases PyDict.mem_keysOf_set d k0 v k hk with h2 | h2
  · rw [h2]; exact h0
  · exact h k h2

/-- Claim C5 (amended): with monotonic readings `t0 ≤ t1`, and provided
every stage-context field name — the `operation` key, the caller context
keys, and whatever the body leaves in the yielded dict — is accepted by the
`extra` mechanism (collides with no built-in `LogRecord` attribute), a body
that completes normally makes `stage` emit exactly one completion record —
message `<operation>_completed`, extra fields the final stage context plus
a non-negative `duration_ms` — and no failure record, re-raising nothing;
a body that raises makes `stage` emit exactly one failure record — message
`<operation>_failed`, carrying `duration_ms` plus the captured error type
name and message — and no completion record, and re-raise the original
exception object unchanged.  (Without the proviso the logging calls raise
`KeyError` and nothing is emitted, see the counterexample.) -/
theorem stage_emits_one_record (operation : String) (logStart : Bool)
    (context : PyDict) (t0 t1 : ℚ) (body : PyDict → PyDict × Option PyExc)
    (h : t0 ≤ t1)
    (h0 : ∀ k ∈ (stageCtx0 operation context).keysOf, badKeyTest k = false) :
    0 ≤ round2 ((t1 - t0) * 1000) ∧
    (∀ sc, body (stageCtx0 operation context) = (sc, Option.none) →
      (∀ k ∈ sc.keysOf, badKeyTest k = false) →
      stage operation logStart context t0 t1 body
        = (startRecords operation logStart context
            ++ [⟨.info, operation ++ "_completed",
                completionExtra sc (round2 ((t1 - t0) * 1000))⟩], Option.none) ∧
      countMsg (operation ++ "_completed")
        (stage operation logStart context t0 t1 body).1 = 1 ∧
      countMsg (operation ++ "_failed")
        (stage operation logStart context t0 t1 body).1 = 0 ∧
      (completionExtra sc (round2 ((t1 - t0) * 1000))).lookup "duration_ms"
        = some (.num (round2 ((t1 - t0) * 1000)))) ∧
    (∀ sc e, body (stageCtx0 operation context) = (sc, some e) →
      (∀ k ∈ sc.keysOf, badKeyTest k = false) →
      stage operation logStart context t0 t1 body
        = (startRecords operation logStart context
            ++ [⟨.error, operation ++ "_failed",
                failureExtra sc (round2 ((t1 - t0) * 1000)) e⟩], some e) ∧
      countMsg (operation ++ "_failed")
        (stage operation logStart context t0 t1 body).1 = 1 ∧
      countMsg (operation ++ "_completed")
        (stage operation logStart context t0 t1 body).1 = 0 ∧
      (failureExtra sc (round2 ((t1 - t0) * 1000)) e).lookup "duration_ms"
        = some (.num (round2 ((t1 - t0) * 1000))) ∧
      (failureExtra sc (round2 ((t1 - t0) * 1000)) e).lookup "error"
        = some (.str e.message) ∧
      (failureExtra sc (round2 ((t1 - t0) * 1000)) e).lookup "error_type"
        = some (.str e.typeName)) := by
  have hd : 0 ≤ round2 ((t1 - t0) * 1000) := by
    have : (0 : ℚ) ≤ (t1 - t0) * 1000 := by nlinarith
    exact round2_nonneg _ this
  have hstart : logEmit .info (operation ++ "_started") (stageCtx0 operation context)
      = .ok ⟨.info, operation ++ "_started", stageCtx0 operation context⟩ := by
    unfold logEmit
    rw [badExtraKey_none_of _ h0]
  refine ⟨hd, ?_, ?_⟩
  · intro sc hb hsc
    have hce : badExtraKey (completionExtra sc (round2 ((t1 - t0) * 1000)))
        = Option.none :=
      badExtraKey_none_of _ (keysOf_set_clean sc "duration_ms" _ hsc (by decide))
    have htb : stageTryBlock operation context t0 t1 body
        = ([⟨.info, operation ++ "_completed",
            completionExtra sc (round2 ((t1 - t0) * 1000))⟩], Option.none) := by
      simp only [stageTryBlock, hb, logEmit, hce]
    have hs : stage operation logStart context t0 t1 body
        = (startRecords operation logStart context
            ++ [⟨.info, operation ++ "_completed",
                completionExtra sc (round2 ((t1 - t0) * 1000))⟩], Option.none) := by
      cases logStart with
      | true => simp [stage, hstart, htb, startRecords]
      | false => simp [stage, htb, startRecords]
    refine ⟨hs, ?_, ?_, PyDict.lookup_set_self sc "duration_ms" _⟩
    · rw [hs]
      cases logStart with
      | true =>
          simp [countMsg, startRecords, List.filter,
            append_beq_false operation "_started" "_completed" (by decide)]
      | false => simp [countMsg, startRecords, List.filter]
    · rw [hs]
      cases logStart with
      | true =>
          simp [countMsg, startRecords, List.filter,
            append_beq_false operation "_started" "_failed" (by decide),
            append_beq_false operation "_completed" "_failed" (by decide)]
      | false =>
          simp [countMsg, startRecords, List.filter,
            append_beq_false operation "_completed" "_failed" (by decide)]
  · intro sc e hb hsc
    have hf1 := keysOf_set_clean sc "duration_ms"
      (.num (round2 ((t1 - t0) * 1000))) hsc (by decide)
    have hf2 := keysOf_set_clean _ "error" (.str e.message) hf1 (by decide)
    have hf3 := keysOf_set_clean _ "error_type" (.str e.typeName) hf2 (by decide)
    have hfe : badExtraKey (failureExtra sc (round2 ((t1 - t0) * 1000)) e)
        = Option.none :=
      badExtraKey_none_of _ hf3
    have htb : stageTryBlock operation context t0 t1 body
        = ([⟨.error, operation ++ "_failed",
            failureExtra sc (round2 ((t1 - t0) * 1000)) e⟩], some e) := by
      simp only [stageTryBlock, hb, logEmit, hfe]
    have hs : stage operation logStart context t0 t1 body
        = (startRecords operation logStart context
            ++ [⟨.error, operation ++ "_failed",
                failureExtra sc (round2 ((t1 - t0) * 1000)) e⟩], some e) := by
      cases logStart with
      | true => simp [stage, hstart, htb, startRecords]
      | false => simp [stage, htb, startRecords]
    refine ⟨hs, ?_, ?_, ?_, ?_, ?_⟩
    · rw [hs]
      cases logStart with
      | true =>
          simp [countMsg, startRecords, List.filter,
            append_beq_false operation "_started" "_failed" (by decide)]
      | false => simp [countMsg, startRecords, List.filter]
    · rw [hs]
      cases logStart with
      | true =>
          simp [countMsg, startRecords, List.filter,
            append_beq_false operation "_started" "_completed" (by decide),
            append_beq_false operation "_failed" "_completed" (by decide)]
      | false =>
          simp [countMsg, startRecords, List.filter,
            append_beq_false operation "_failed" "_completed" (by decide)]
    · show (failureExtra sc _ e).lookup "duration_ms" = _
      unfold failureExtra
      rw [PyDict.lookup_set_ne _ "error_type" "duration_ms" _ (by decide),
        PyDict.lookup_set_ne _ "error" "duration_ms" _ (by decide)]
      exact PyDict.lookup_set_self sc "duration_ms" _
    · show (failureExtra sc _ e).lookup "error" = _
      unfold failureExtra
      rw [PyDict.lookup_set_ne _ "error_type" "error" _ (by decide)]
      exact PyDict.lookup_set_self _ "error" _
    · exact PyDict.lookup_set_self _ "error_type" _

/-- Witness for claim C5 at a concrete input: a body that completes
normally between readings 0 and 1, with the single accepted stage field
`operation`, produces exactly one completion record. -/
theorem stage_emits_one_record_witness :
    countMsg ("op" ++ "_completed")
      (stage "op" true PyDict.nil 0 1 (fun sc => (sc, Option.none))).1 = 1 :=
  ((stage_emits_one_record "op" true PyDict.nil 0 1
      (fun sc => (sc, Option.none)) (by norm_num)
      (by intro k hk
          have h2 : k = "operation" := by
            simpa [stageCtx0, PyDict.merge, PyDict.keysOf] using hk
          rw [h2]; decide)).2.1
    (stageCtx0 "op" PyDict.nil) rfl
    (by intro k hk
        have h2 : k = "operation" := by
          simpa [stageCtx0, PyDict.merge, PyDict.keysOf] using hk
        rw [h2]; decide)).2.1

/-- Counterexample for claim C5 as stated: a stage field named after a
built-in `LogRecord` attribute (here `filename`) makes every emission
attempt raise `KeyError` inside `stage`.  A normally-completing body then
yields zero records and an exception to the caller; a raising body yields
zero records and the caller sees the `KeyError` instead of the original
exception; with the start marker enabled the `KeyError` propagates before
the body even runs. -/
theorem stage_keyerror_counterexample :
    stage "op" false (.cons "filename" (.str "a.pdf") .nil) 0 1
        (fun sc => (sc, Option.none))
      = ([], some ⟨"KeyError", "Attempt to overwrite filename in LogRecord"⟩) ∧
    countMsg ("op" ++ "_completed")
      (stage "op" false (.cons "filename" (.str "a.pdf") .nil) 0 1
        (fun sc => (sc, Option.none))).1 = 0 ∧
    stage "op" false (.cons "filename" (.str "a.pdf") .nil) 0 1
        (fun sc => (sc, some ⟨"ValueError", "boom"⟩))
      = ([], some ⟨"KeyError", "Attempt to overwrite filename in LogRecord"⟩) ∧
    stage "op" true (.cons "filename" (.str "a.pdf") .nil) 0 1
        (fun sc => (sc, Option.none))
      = ([], some ⟨"KeyError", "Attempt to overwrite filename in LogRecord"⟩) :=
  ⟨rfl, rfl, rfl, rfl⟩

end RagShared
